import Mathlib

/-!
Verification development for the mdparse parsing core
(`src/tokeniser.py`, `src/parser.py`, `src/tree.py`).

The pipeline is modelled as a shallow embedding:

* `StringPeek` — the peekable cursor over the input text (identical in
  `tokeniser.py` and `parser.py`).
* `Tokeniser`-layer functions (`tokenise` and the per-character handlers),
  following `tokeniser.py` (the superset version: it also implements the
  ordered-list probe, which `parser.py`'s copy lacks; the two copies agree
  on every handler modelled here).
* `processDelimiters` — the delimiter resolver, following the function
  `process_delimiters` of `parser.py` (the class-based copy in
  `tokeniser.py` references an undefined `processed_tokens` name in its
  reclassification branches, so the module-level function is the working
  resolver).
* `catch_token`/`build_tree` — the tree builder, following `tree.py`'s
  `Node` (the newer of the two `Node` implementations: it alone implements
  ordered lists, the bounded list search and the embed-to-image rules the
  spec describes).

Python exceptions (IndexError from `list[-1]` on an empty list, ValueError
from negative seeks or failed `int()`/`list.index`, NameError from unbound
names) and non-terminating loops are modelled by `Option`: a raised
exception or divergence is `none`.  Every stream position that the source
reads is modelled exactly; where a Python `in` test is a substring test,
the model uses `pyInStr` with the same semantics (in particular the empty
string is a substring of everything, as in Python).
-/

/-- Python `needle in haystack` on strings: substring containment
(the empty string is contained in every string). -/
def pyInStrAux (needle : List Char) : List Char → Bool
  | [] => needle.isEmpty
  | c :: rest => needle.isPrefixOf (c :: rest) || pyInStrAux needle rest

/-- Python substring test `needle in haystack`. -/
def pyInStr (needle haystack : String) : Bool :=
  pyInStrAux needle.data haystack.data

/-- Python `s[-n:]`: the last `n` characters (the whole string when it is
shorter than `n`). -/
def pyLastN (s : String) (n : Nat) : String :=
  String.mk (s.data.drop (s.data.length - n))

/-- Python `string.digits`. -/
def pyDigits : String := "0123456789"

/-- Scan for the first occurrence of a separator character, returning the
(reversed-accumulator) prefix and the suffix. -/
def pyPartitionAux (sep : Char) (before : List Char) : List Char → Option (List Char × List Char)
  | [] => none
  | c :: rest =>
    if c = sep then some (before.reverse, rest)
    else pyPartitionAux sep (c :: before) rest

/-- Python `str.partition(sep)` for a single-character separator: split at
the first occurrence; when the separator does not occur the second and
third components are empty. -/
def pyPartitionChar (s : String) (sep : Char) : String × String × String :=
  match pyPartitionAux sep [] s.data with
  | none => (s, "", "")
  | some (b, a) => (String.mk b, String.singleton sep, String.mk a)

/-- Python `"".join(l)`. -/
def joinStr (l : List String) : String := l.foldl (fun a b => a ++ b) ""

/-! ## StringPeek (the Cursor)

`class StringPeek(io.StringIO)` from `src/tokeniser.py` lines 6-31 and
`src/parser.py` lines 9-34 (identical).  The stream is the full input text
plus a cursor position.  `io.StringIO.seek` raises `ValueError` on a
negative target position, and reading at or past the end returns the empty
string; both behaviours are modelled exactly. -/

structure StringPeek where
  s : List Char
  pos : Nat
  deriving DecidableEq, Repr

/-- Read up to `n` characters starting at absolute position `p` without
moving the cursor (the primitive under `peek`/`peek_char`). -/
def StringPeek.readFrom (st : StringPeek) (p n : Nat) : String :=
  String.mk ((st.s.drop p).take n)

/-- `peek(count)`: string of `count` characters from the cursor without
moving the cursor; negative `count` reads backward from the cursor.
A negative seek target raises ValueError (`none`). -/
def StringPeek.peek (st : StringPeek) (count : Int := 1) : Option String :=
  if count < 0 then
    if (st.pos : Int) + count < 0 then none
    else some (st.readFrom ((st.pos : Int) + count).toNat count.natAbs)
  else some (st.readFrom st.pos count.toNat)

/-- `peek_char(offset)`: the single character `offset` characters from the
cursor, without moving the cursor.  A negative seek target raises
ValueError (`none`); past the end the read returns `""`. -/
def StringPeek.peek_char (st : StringPeek) (offset : Int := 1) : Option String :=
  if (st.pos : Int) + offset < 0 then none
  else some (st.readFrom ((st.pos : Int) + offset).toNat 1)

/-- `read(n)`: consume and return up to `n` characters, advancing the
cursor. -/
def StringPeek.read (st : StringPeek) (n : Nat) : String × StringPeek :=
  let chars := (st.s.drop st.pos).take n
  (String.mk chars, { st with pos := st.pos + chars.length })

/-- `read(1)` as used by `Tokeniser.next`, returning the character if any. -/
def StringPeek.read1 (st : StringPeek) : Option Char × StringPeek :=
  match st.s.drop st.pos with
  | [] => (none, st)
  | c :: _ => (some c, { st with pos := st.pos + 1 })

/-- `relative_seek(offset)`: move the cursor by `offset`; a negative target
raises ValueError (`none`). -/
def StringPeek.relative_seek (st : StringPeek) (offset : Int := 1) : Option StringPeek :=
  if (st.pos : Int) + offset < 0 then none
  else some { st with pos := ((st.pos : Int) + offset).toNat }

/-! ## Tokeniser

`class Tokeniser` from `src/tokeniser.py` lines 34-298.  The state is the
stream, the emitted token list and the accumulating text buffer
(`current_token`). -/

structure TState where
  stream : StringPeek
  tokens : List String
  current : String
  deriving DecidableEq, Repr

/-- `_end_current_token`: flush a non-empty buffer as a literal token. -/
def endCurrentToken (ts : TState) : TState :=
  if ts.current = "" then ts
  else { ts with tokens := ts.tokens ++ [ts.current], current := "" }

/-- `is_first_line_character` loop body: for `i in range(2, tell())`, scan
backwards past spaces/tabs looking for a newline.  The remaining
iteration count `st.pos - i` drives the recursion (zero exactly when
`i < st.pos` fails); `peek_char(-i)` is in range throughout
(`2 ≤ i < pos`), so the `getD` default is never used. -/
def isFirstLineAux (st : StringPeek) (i : Nat) : Nat → Bool
  | 0 => true
  | remaining + 1 =>
    let c := (st.peek_char (-(i : Int))).getD ""
    if pyInStr c " \t" then isFirstLineAux st (i + 1) remaining
    else if c = "\n" then true
    else false

/-- `is_first_line_character`: True if the character just read is the first
non-whitespace character on its line.  Note the source's backward scan
stops one short of position 0 (`range(2, tell())`), so the very first
character of the input is never examined by the loop. -/
def is_first_line_character (st : StringPeek) : Bool :=
  if st.pos = 1 then true else isFirstLineAux st 2 (st.pos - 2)

/-- `tab_handler`. -/
def tab_handler (ts : TState) : TState :=
  let t := endCurrentToken ts
  { t with tokens := t.tokens ++ ["\t"] }

/-- The digit scan of `handle_numbered_list`:
`while self.stream.peek_char(peek) in string.digits: peek += 1`.
`peek_char` returns `""` at and past the end of the input, and in Python
`"" in string.digits` is True, so once the scan reaches the end of input
the loop never terminates; that divergence is modelled as `none`.  The
extra argument is the number of in-range offsets left,
`st.s.length - (st.pos + k)`: it is zero exactly when the scan has
reached the end of the input. -/
def digit_scan (st : StringPeek) (k : Nat) : Nat → Option Nat
  | 0 => none
  | remaining + 1 =>
    let c := (st.peek_char (k : Int)).getD ""
    if pyInStr c pyDigits then digit_scan st (k + 1) remaining else some k

/-- `handle_numbered_list`: the ordered-list probe, entered after a digit
has been read at first-significant-line position.  On success the token is
`peek_char(-1) + peek(k+2)` (the digit, the further digits, and `". "`)
and `k+2` characters are consumed.  On failure the source writes
`peek_char(0)` — the character at the cursor, i.e. the character *after*
the already-consumed digit — to the text buffer, and consumes nothing. -/
def handle_numbered_list (ts : TState) : Option TState :=
  match digit_scan ts.stream 0 (ts.stream.s.length - ts.stream.pos) with
  | none => none
  | some k =>
    if pyLastN ((ts.stream.peek ((k : Int) + 2)).getD "") 2 = ". " then
      match ts.stream.peek_char (-1) with
      | none => none
      | some d =>
        let tok := d ++ (ts.stream.peek ((k : Int) + 2)).getD ""
        some { ts with tokens := ts.tokens ++ [tok], stream := (ts.stream.read (k + 2)).2 }
    else
      some { ts with current := ts.current ++ (ts.stream.peek_char 0).getD "" }

/-- `space_handler`: three spaces collapse to a tab token. -/
def space_handler (ts : TState) : Option TState :=
  if (ts.stream.peek 3).getD "" = "   " then
    let st' := (ts.stream.read 3).2
    some (tab_handler { ts with stream := st' })
  else some { ts with current := ts.current ++ " " }

/-- `insert_bar_token`. -/
def insert_bar_token (ts : TState) : TState :=
  let t := endCurrentToken ts
  { t with tokens := t.tokens ++ ["---"], stream := (t.stream.read 2).2 }

/-- `hyphen_handler` (the `tokeniser.py` version, with an early return in
the not-first-character case). -/
def hyphen_handler (ts : TState) : Option TState :=
  if ¬ is_first_line_character ts.stream then
    some { ts with current := ts.current ++ "-" }
  else if (ts.stream.peek 2).getD "" = "--" then
    some (insert_bar_token ts)
  else if (ts.stream.peek 1).getD "" = " " then
    let t := endCurrentToken ts
    some { t with tokens := t.tokens ++ ["- "], stream := (t.stream.read 1).2 }
  else some ts

/-- `star_handler`. -/
def star_handler (ts : TState) : Option TState :=
  let t := endCurrentToken ts
  if is_first_line_character t.stream ∧ (t.stream.peek 1).getD "" = " " then
    let t2 := endCurrentToken t
    some { t2 with tokens := t2.tokens ++ ["* "], stream := (t2.stream.read 1).2 }
  else if (t.stream.peek 1).getD "" = "*" then
    some { t with tokens := t.tokens ++ ["**"], stream := (t.stream.read 1).2 }
  else some { t with tokens := t.tokens ++ ["*"] }

/-- `underscore_handler`. -/
def underscore_handler (ts : TState) : Option TState :=
  let t := endCurrentToken ts
  if (t.stream.peek 1).getD "" = "_" then
    some { t with tokens := t.tokens ++ ["__"], stream := (t.stream.read 1).2 }
  else some { t with tokens := t.tokens ++ ["_"] }

/-- `escape_handler`: append the next character (possibly none at the end
of input) to the buffer. -/
def escape_handler (ts : TState) : Option TState :=
  let r := ts.stream.read 1
  some { ts with current := ts.current ++ r.1, stream := r.2 }

/-- `newline_handler`. -/
def newline_handler (ts : TState) : Option TState :=
  let t := endCurrentToken ts
  some { t with tokens := t.tokens ++ ["\n"] }

/-- A tag character: alphanumeric, hyphen, slash or underscore
(`char.isalnum()` or membership in the three-character string). -/
def tagChar (c : Char) : Bool :=
  c.isAlphanum || c = '-' || c = '/' || c = '_'

/-- `check_tag` scan: accumulate tag characters from the cursor (the `#`
itself was already consumed and seeds the accumulator).  The recursion
runs on the remaining iteration count `(end - cursor) - i` of
`for i in range(0, end - cursor)`. -/
def check_tag_go (st : StringPeek) (tag : String) (i : Nat) : Nat → String
  | 0 => tag
  | remaining + 1 =>
    match ((st.peek_char (i : Int)).getD "").data with
    | [c] => if tagChar c then check_tag_go st (tag.push c) (i + 1) remaining else tag
    | _ => tag

/-- `check_tag`: the candidate tag must contain at least one alphabetic
character, else the probe fails (returns `""`). -/
def check_tag (st : StringPeek) : String :=
  let tagString := check_tag_go st "#" 0 (st.s.length - st.pos)
  if (tagString.data.filter Char.isAlpha) ≠ [] then tagString else ""

/-- `check_heading` scan: the guard `if i > 6: return ""` sits at the top
of the loop body, before the character at offset `i` is examined.  The
recursion runs on the remaining iteration count `(end - cursor) - i` of
`for i in range(0, end - cursor)`; an exhausted range returns `""`. -/
def check_heading_go (st : StringPeek) (heading : String) (i : Nat) : Nat → String
  | 0 => ""
  | remaining + 1 =>
    if i > 6 then ""
    else
      let c := (st.peek_char (i : Int)).getD ""
      if c = "#" then check_heading_go st (heading ++ c) (i + 1) remaining
      else if c = " " then heading
      else ""

/-- `check_heading`: probe for a run of `#` followed by a space (the first
`#` was already consumed and seeds the accumulator). -/
def check_heading (st : StringPeek) : String :=
  check_heading_go st "#" 0 (st.s.length - st.pos)

/-- `handle_heading`: emit the heading token and consume `len(heading)`
further characters. -/
def handle_heading (ts : TState) (heading : String) : TState :=
  { ts with tokens := ts.tokens ++ [heading], stream := (ts.stream.read heading.length).2 }

/-- The tag-probe half of `hash_handler`. -/
def hash_tag_part (ts : TState) : Option TState :=
  let tag := check_tag ts.stream
  if tag ≠ "" then
    let t := endCurrentToken ts
    match t.stream.relative_seek ((tag.length : Int) - 1) with
    | none => none
    | some st' => some { t with tokens := t.tokens ++ [tag], stream := st' }
  else some { ts with current := ts.current ++ "#" }

/-- `hash_handler`: heading probe only at first-significant-line position,
then the tag probe, then literal `#`. -/
def hash_handler (ts : TState) : Option TState :=
  if is_first_line_character ts.stream then
    let heading := check_heading ts.stream
    if heading ≠ "" then
      let t := endCurrentToken ts
      some (handle_heading t heading)
    else hash_tag_part ts
  else hash_tag_part ts

/-- `open_sqbracket_handler`. -/
def open_sqbracket_handler (ts : TState) : Option TState :=
  let t := endCurrentToken ts
  if (t.stream.peek 1).getD "" = "[" then
    some { t with tokens := t.tokens ++ ["[["], stream := (t.stream.read 1).2 }
  else some { t with tokens := t.tokens ++ ["["] }

/-- `bang_handler`: a `!` immediately followed by `[[` opens an embed; any
other `!` falls through the handler with no effect (it is neither written
to the buffer nor emitted). -/
def bang_handler (ts : TState) : Option TState :=
  if (ts.stream.peek 2).getD "" = "[[" then
    let t := endCurrentToken ts
    some { t with tokens := t.tokens ++ ["![["], stream := (t.stream.read 2).2 }
  else some ts

/-- `close_sqbracket_handler`. -/
def close_sqbracket_handler (ts : TState) : Option TState :=
  let t := endCurrentToken ts
  if (t.stream.peek 1).getD "" = "]" then
    some { t with tokens := t.tokens ++ ["]]"], stream := (t.stream.read 1).2 }
  else if (t.stream.peek 1).getD "" = "(" then
    some { t with tokens := t.tokens ++ ["]("], stream := (t.stream.read 1).2 }
  else some { t with tokens := t.tokens ++ ["]"] }

/-- `open_rdbracket_handler`. -/
def open_rdbracket_handler (ts : TState) : Option TState :=
  let t := endCurrentToken ts
  some { t with tokens := t.tokens ++ ["("] }

/-- `close_rdbracket_handler`. -/
def close_rdbracket_handler (ts : TState) : Option TState :=
  let t := endCurrentToken ts
  some { t with tokens := t.tokens ++ [")"] }

/-- `pipe_handler`. -/
def pipe_handler (ts : TState) : Option TState :=
  let t := endCurrentToken ts
  some { t with tokens := t.tokens ++ ["|"] }

/-- `block_quote_handler`. -/
def block_quote_handler (ts : TState) : Option TState :=
  if is_first_line_character ts.stream then
    let t := endCurrentToken ts
    some { t with tokens := t.tokens ++ ["> "], stream := (t.stream.read 1).2 }
  else some { ts with current := ts.current ++ ">" }

/-- The guard of `backtick_handler` is `self.stream.peek(2) == 2`: it
compares the peeked *string* with the *integer* 2, which in Python is
always False, so the code-block branch is dead code. -/
def pyStrEqInt (_s : String) (_n : Nat) : Bool := false

/-- `backtick_handler`. -/
def backtick_handler (ts : TState) : Option TState :=
  if pyStrEqInt ((ts.stream.peek 2).getD "") 2 then
    let t := endCurrentToken ts
    some { t with tokens := t.tokens ++ ["```"], stream := (t.stream.read 2).2 }
  else
    let t := endCurrentToken ts
    some { t with tokens := t.tokens ++ ["`"] }

/-- `colon_handler`. -/
def colon_handler (ts : TState) : Option TState :=
  let t := endCurrentToken ts
  if (t.stream.peek 1).getD "" = ":" then
    some { t with tokens := t.tokens ++ ["::"], stream := (t.stream.read 1).2 }
  else some { t with tokens := t.tokens ++ [":"] }

/-- `process(char)`: dispatch through the handler table keyed on the
trigger characters, else the digit probe, else append to the buffer.
(`'`'` is the backquote character.) -/
def processChar (ts : TState) (c : Char) : Option TState :=
  match c with
  | '*' => star_handler ts
  | '\\' => escape_handler ts
  | '#' => hash_handler ts
  | '\n' => newline_handler ts
  | '_' => underscore_handler ts
  | '\t' => some (tab_handler ts)
  | ' ' => space_handler ts
  | '-' => hyphen_handler ts
  | '[' => open_sqbracket_handler ts
  | ']' => close_sqbracket_handler ts
  | '(' => open_rdbracket_handler ts
  | ')' => close_rdbracket_handler ts
  | '|' => pipe_handler ts
  | '>' => block_quote_handler ts
  | ':' => colon_handler ts
  | '`' => backtick_handler ts
  | '!' => bang_handler ts
  | _ =>
    if is_first_line_character ts.stream ∧ pyInStr (String.singleton c) pyDigits then
      handle_numbered_list ts
    else some { ts with current := ts.current.push c }

/-- `next`: read one character; at the end of input flush and emit `!EOF`
(the returned Bool is whether tokenising continues). -/
def tokeniser_next (ts : TState) : Option (Bool × TState) :=
  let r := ts.stream.read1
  match r.1 with
  | none =>
    let t := endCurrentToken { ts with stream := r.2 }
    some (false, { t with tokens := t.tokens ++ ["!EOF"] })
  | some c => (processChar { ts with stream := r.2 } c).map (fun ts' => (true, ts'))

/-- The `while self.next()` driver loop.  Every non-final `next` consumes
at least one character, so `input.length + 1` iterations always suffice and
running out of fuel can only model divergence. -/
def tokenise_loop : Nat → TState → Option (List String)
  | 0, _ => none
  | fuel + 1, ts =>
    match tokeniser_next ts with
    | none => none
    | some (false, ts') => some ts'.tokens
    | some (true, ts') => tokenise_loop fuel ts'

/-- `Tokeniser(StringPeek(input)).tokenise()`. -/
def tokenise (input : String) : Option (List String) :=
  tokenise_loop (input.length + 1) ⟨⟨input.data, 0⟩, [], ""⟩

/-! ## Delimiter resolver

`process_delimiters` and `accept_opener` from `src/parser.py` lines
563-685 (the working resolver; the `DelimiterProcessor` class in
`tokeniser.py` uses the undefined name `processed_tokens` in its
reclassification branches).  The state is the stack of `(index, opener)`
pairs (top at the end of the list), the `processed_tokens` dict (an
association list with overwrite-on-insert), and the
`external_link_correct` flag. -/

/-- The `openers` table (identical in `parser.py` and `tokeniser.py`). -/
def openersLookup (t : String) : Option String :=
  [("*", "!EM"), ("**", "!STRONG"), ("_", "!EM"), ("__", "!STRONG"),
   ("#", "!H1"), ("##", "!H2"), ("###", "!H3"), ("####", "!H4"),
   ("#####", "!H5"), ("######", "!H6"), ("* ", "!ITEM"), ("- ", "!ITEM"),
   ("> ", "!BLOCK_QUOTE"), ("[[", "!INTERNAL_LINK"), ("![[", "!EMBED_LINK"),
   ("[", "!EXTERNAL_LINK"), ("`", "!CODE"), ("```", "!CODEBLOCK")].lookup t

/-- `closed_by_newline` (the source lists `"####"` twice; a duplicate list
entry is harmless for membership). -/
def closed_by_newline : List String :=
  ["#", "##", "###", "####", "####", "#####", "######", "> ", "- ", "* "]

/-- The `delimiters` table: closers mapped to the openers they match. -/
def delimitersLookup (t : String) : Option (List String) :=
  [("*", ["*"]), ("**", ["**"]), ("_", ["_"]), ("__", ["__"]),
   ("]]", ["![[", "[["]), ("\n", closed_by_newline), ("\n\n", closed_by_newline),
   ("```", ["```"]), ("`", ["`"]), (")", ["["])].lookup t

/-- Resolver state. -/
structure DState where
  stack : List (Nat × String)
  processed : List (Nat × String)
  external_link_correct : Bool
  deriving DecidableEq, Repr

/-- Python dict assignment `d[k] = v` on the `processed_tokens` dict. -/
def pyDictInsert (d : List (Nat × String)) (k : Nat) (v : String) : List (Nat × String) :=
  (k, v) :: d.filter (fun p => p.1 ≠ k)

/-- `accept_opener` (`parser.py` lines 663-685).  The source's signature
also receives the index and the full token list but uses neither; the
membership test `stack_tokens[-1] not in "```"` is Python's substring
test. -/
def accept_opener (stack : List (Nat × String)) (token : String) : Bool :=
  let rejectInside := [("__", "**"), ("_", "*"), ("*", "_"), ("**", "__")]
  let stackTokens := stack.map Prod.snd
  if stackTokens.contains ((rejectInside.lookup token).getD "not a token") then false
  else if ¬ stack.isEmpty ∧ ¬ pyInStr (stackTokens.getLast?.getD "") "```" then true
  else if stack.isEmpty then true
  else false

/-- `not delimiter_stack or delimiter_stack[-1][1] not in "```"`, the
common guard of the tab and horizontal-bar reclassifications. -/
def stackTopNotCode (stack : List (Nat × String)) : Bool :=
  match stack.getLast? with
  | none => true
  | some top => ¬ pyInStr top.2 "```"

/-- The two trailing reclassification `if`s of the loop body
(`token == "\t"` and `token == "---"`). -/
def tabHbar (st : DState) (i : Nat) (token : String) : DState :=
  let st1 :=
    if token = "\t" ∧ stackTopNotCode st.stack then
      { st with processed := pyDictInsert st.processed i "!TAB" }
    else st
  if token = "---" ∧ stackTopNotCode st1.stack then
    { st1 with processed := pyDictInsert st1.processed i "!HBAR" }
  else st1

/-- The opener / blank-line / pipe section of the loop body (reached when
neither the `](` rewrite nor a matching closer consumed the token).
`token in "\n\n"` and `d[1] in "```"` are Python substring tests, so a
single `"\n"` also triggers the stack flush and only backtick openers
survive it.  `delimiter_stack[-1]` in the pipe branch raises IndexError
(`none`) when the stack is empty. -/
def procStepOpeners (st : DState) (i : Nat) (token : String) : Option DState :=
  let st1 :=
    if (openersLookup token).isSome then
      if accept_opener st.stack token then
        { st with stack := st.stack ++ [(i, token)] }
      else st
    else st
  let st2 :=
    if pyInStr token "\n\n" then
      let flushed := st1.stack.filter (fun d => pyInStr d.2 "```")
      if flushed.isEmpty then
        { st1 with stack := flushed, processed := pyDictInsert st1.processed i "!LINE_BREAK" }
      else { st1 with stack := flushed }
    else st1
  if token = "|" then
    match st2.stack.getLast? with
    | none => none
    | some top =>
      if pyInStr top.2 "![[" then
        some (tabHbar { st2 with processed := pyDictInsert st2.processed i "!PIPE" } i token)
      else some (tabHbar st2 i token)
  else some (tabHbar st2 i token)

/-- The guard of the closing-delimiter section:
`token in delimiters.keys()` and the stack is non-empty and
`delimiter_stack[-1][1] in delimiters[token]` (an empty stack `pass`es,
a non-matching top falls through). -/
def closerMatches (st : DState) (token : String) : Bool :=
  match delimitersLookup token, st.stack.getLast? with
  | some allowed, some top => allowed.contains top.2
  | _, _ => false

/-- The closing-delimiter section of the loop body: a registered closer
whose stack top matches pops it; a `)` without a pending link-target-break
discards the pop silently; otherwise both positions are rewritten.  An
empty stack or a non-matching top falls through to the opener section. -/
def procStepClosers (st : DState) (i : Nat) (token : String) : Option DState :=
  if closerMatches st token then
    match st.stack.getLast? with
    | none => none
    | some top =>
      let stack' := st.stack.dropLast
      if token = ")" ∧ ¬ st.external_link_correct then
        some { st with stack := stack' }
      else
        let st1 :=
          if token = ")" ∧ st.external_link_correct then
            { st with stack := stack', external_link_correct := false }
          else { st with stack := stack' }
        match openersLookup top.2 with
        | none => none
        | some tag =>
          some { st1 with
                 processed := pyDictInsert (pyDictInsert st1.processed top.1 tag) i "!CLOSE" }
  else procStepOpeners st i token

/-- One iteration of the `process_delimiters` loop.  The first branch is
`if token == "](" and delimiter_stack[-1][1] == "[":` — Python evaluates
left to right, so `delimiter_stack[-1]` is reached (and raises IndexError
on an empty stack, modelled `none`) exactly when the token is `](`. -/
def procStep (st : DState) (i : Nat) (token : String) : Option DState :=
  if token = "](" then
    match st.stack.getLast? with
    | none => none
    | some top =>
      if top.2 = "[" then
        some { st with processed := pyDictInsert st.processed i "!LINK_BREAK",
                       external_link_correct := true }
      else procStepClosers st i token
  else procStepClosers st i token

/-- The `for i, token in enumerate(tokens)` loop. -/
def procLoop (st : DState) (i : Nat) : List String → Option DState
  | [] => some st
  | t :: rest =>
    match procStep st i t with
    | none => none
    | some st' => procLoop st' (i + 1) rest

/-- `process_delimiters` up to (but not including) the final rebuild:
the resolver state after the loop. -/
def processDelimitersSt (tokens : List String) : Option DState :=
  procLoop ⟨[], [], false⟩ 0 tokens

/-- `process_delimiters(tokens)`: the token list with every position that
was assigned in `processed_tokens` rewritten. -/
def processDelimiters (tokens : List String) : Option (List String) :=
  (processDelimitersSt tokens).map (fun st =>
    tokens.enum.map (fun p => (st.processed.lookup p.1).getD p.2))

/-! ## Tree builder

`Element` and `Node` from `src/tree.py`.  A node's mutable state is its
value, `closed` flag, `link_to`, `list_indent`, `start_number`,
`tab_count`, image dimensions and children (the source also initialises a
`start_new_list` flag that no `tree.py` code ever reads; it is omitted).
The `parent`/`root` back-references are realised structurally: every
mutation the source performs through them is either local to the node the
recursion is visiting, confined to its last-child spine, or the global
`self.root.close_children()` call, which is modelled as an effect flag
handed back to the top of the recursion. -/

inductive Element where
  | ROOT | STRONG | EM | PARAGRAPH | H1 | H2 | H3 | H4 | H5 | H6 | TAG
  | LINE_BREAK | INTERNAL_LINK | EMBED_LINK | EXTERNAL_LINK | BLOCK_QUOTE
  | ITEM | UNORDERED_LIST | ORDERED_LIST | CODE | CODEBLOCK | HBAR
  | FRONTMATTER | IMAGE
  deriving DecidableEq, Repr

/-- `self.value`: an `Element` or a literal text string. -/
inductive Value where
  | elem : Element → Value
  | text : String → Value
  deriving DecidableEq, Repr

/-- A document-tree node.  Field order: value, closed, link_to,
list_indent, start_number, tab_count, image_width, image_height,
children. -/
inductive Node where
  | mk (value : Value) (closed : Bool) (link_to : String) (list_indent : Nat)
       (start_number : Nat) (tab_count : Nat) (image_width : String)
       (image_height : String) (children : List Node) : Node
  deriving Repr

def Node.value : Node → Value | .mk v _ _ _ _ _ _ _ _ => v
def Node.closed : Node → Bool | .mk _ c _ _ _ _ _ _ _ => c
def Node.link_to : Node → String | .mk _ _ l _ _ _ _ _ _ => l
def Node.list_indent : Node → Nat | .mk _ _ _ li _ _ _ _ _ => li
def Node.start_number : Node → Nat | .mk _ _ _ _ sn _ _ _ _ => sn
def Node.tab_count : Node → Nat | .mk _ _ _ _ _ tc _ _ _ => tc
def Node.image_width : Node → String | .mk _ _ _ _ _ _ w _ _ => w
def Node.image_height : Node → String | .mk _ _ _ _ _ _ _ h _ => h
def Node.children : Node → List Node | .mk _ _ _ _ _ _ _ _ ch => ch

def Node.setValue : Node → Value → Node
  | .mk _ c l li sn tc w h ch, v => .mk v c l li sn tc w h ch
def Node.setClosed : Node → Bool → Node
  | .mk v _ l li sn tc w h ch, c => .mk v c l li sn tc w h ch
def Node.setLinkTo : Node → String → Node
  | .mk v c _ li sn tc w h ch, l => .mk v c l li sn tc w h ch
def Node.setListIndent : Node → Nat → Node
  | .mk v c l _ sn tc w h ch, li => .mk v c l li sn tc w h ch
def Node.setStartNumber : Node → Nat → Node
  | .mk v c l li _ tc w h ch, sn => .mk v c l li sn tc w h ch
def Node.setTabCount : Node → Nat → Node
  | .mk v c l li sn _ w h ch, tc => .mk v c l li sn tc w h ch
def Node.setDims : Node → String → String → Node
  | .mk v c l li sn tc _ _ ch, w, h => .mk v c l li sn tc w h ch
def Node.setChildren : Node → List Node → Node
  | .mk v c l li sn tc w h _, ch => .mk v c l li sn tc w h ch

/-- `Node.closed_by_default`. -/
def nodeClosedByDefault : List Element := [.TAG, .LINE_BREAK, .HBAR]

/-- `is_initially_closed`: text leaves and the point-marker elements start
closed. -/
def is_initially_closed (v : Value) : Bool :=
  match v with
  | .text _ => true
  | .elem e => nodeClosedByDefault.contains e

/-- `Node(value, parent, root)` construction: `closed` from
`is_initially_closed`, `link_to = ""`, `list_indent = 0`,
`start_number = 1`, `tab_count = 0`, empty image dimensions. -/
def newNode (v : Value) : Node :=
  .mk v (is_initially_closed v) "" 0 1 0 "" "" []

/-- `add_child(value)`. -/
def add_child (n : Node) (v : Value) : Node :=
  n.setChildren (n.children ++ [newNode v])

/-- Replace the last child (the node the source just mutated through
`self.children[-1]`). -/
def updateLast (n : Node) (c : Node) : Node :=
  n.setChildren (n.children.dropLast ++ [c])

/-- `Element` member names, as used by `Element[token[1:]]` and by
Python's `str(Element.X)` rendering `"Element.X"`. -/
def elemName : Element → String
  | .ROOT => "ROOT" | .STRONG => "STRONG" | .EM => "EM"
  | .PARAGRAPH => "PARAGRAPH" | .H1 => "H1" | .H2 => "H2" | .H3 => "H3"
  | .H4 => "H4" | .H5 => "H5" | .H6 => "H6" | .TAG => "TAG"
  | .LINE_BREAK => "LINE_BREAK" | .INTERNAL_LINK => "INTERNAL_LINK"
  | .EMBED_LINK => "EMBED_LINK" | .EXTERNAL_LINK => "EXTERNAL_LINK"
  | .BLOCK_QUOTE => "BLOCK_QUOTE" | .ITEM => "ITEM"
  | .UNORDERED_LIST => "UNORDERED_LIST" | .ORDERED_LIST => "ORDERED_LIST"
  | .CODE => "CODE" | .CODEBLOCK => "CODEBLOCK" | .HBAR => "HBAR"
  | .FRONTMATTER => "FRONTMATTER" | .IMAGE => "IMAGE"

/-- `Element[name]` lookup (KeyError modelled as `none`). -/
def elemOfName (s : String) : Option Element :=
  ([.ROOT, .STRONG, .EM, .PARAGRAPH, .H1, .H2, .H3, .H4, .H5, .H6, .TAG,
    .LINE_BREAK, .INTERNAL_LINK, .EMBED_LINK, .EXTERNAL_LINK, .BLOCK_QUOTE,
    .ITEM, .UNORDERED_LIST, .ORDERED_LIST, .CODE, .CODEBLOCK, .HBAR,
    .FRONTMATTER, .IMAGE] : List Element).find? (fun e => elemName e = s)

/-- `evaluate_token`: tokens starting `!` name an `Element` when the name
exists, else remain literal strings.  (`token[0]` would raise on an empty
token, but the tokeniser never emits one; `""` is treated as text.) -/
def evaluate_token (token : String) : Value :=
  match token.data with
  | [] => .text token
  | c :: rest =>
    if c = '!' then
      match elemOfName (String.mk rest) with
      | some e => .elem e
      | none => .text token
    else .text token

/-- Python `str(value)` of a node value: a text leaf is itself, an element
renders as `Element.NAME`. -/
def valueStr (v : Value) : String :=
  match v with
  | .text s => s
  | .elem e => "Element." ++ elemName e

/-- `Node.__str__`: `"{value} to {link_to}"` when `link_to` is non-empty,
else `"{value}"`. -/
def nodeStr (n : Node) : String :=
  if n.link_to ≠ "" then valueStr n.value ++ " to " ++ n.link_to
  else valueStr n.value

/-- `is_digits`: every character is a decimal digit (vacuously true for
the empty string, as in the source's loop). -/
def is_digits (s : String) : Bool :=
  s.data.all (fun c => pyInStr (String.singleton c) pyDigits)

/-- `Node.__eq__` against an `Element` or string: compares `self.value`
(used by `self.last_child == Element.X`; comparing `None` is False). -/
def lastChildValueIs (n : Node) (v : Value) : Bool :=
  match n.children.getLast? with
  | none => false
  | some ch => ch.value = v

/-- `last_child_open`. -/
def last_child_open (n : Node) : Bool :=
  match n.children.getLast? with
  | none => false
  | some ch => ¬ ch.closed

mutual

/-- `close_children`: recursively close every open child, then mark the
node itself closed. -/
def close_children (n : Node) : Node :=
  match n with
  | .mk v _ l li sn tc w h ch => .mk v true l li sn tc w h (closeChildrenList ch)

/-- The `for child in self.children` loop of `close_children`. -/
def closeChildrenList : List Node → List Node
  | [] => []
  | ch :: rest =>
    (if ch.closed then ch else close_children ch) :: closeChildrenList rest

end

/-- `remove_trailing_line_breaks`: pop children from the end while the
last child is a LINE_BREAK marker. -/
def remove_trailing_line_breaks (n : Node) : Node :=
  n.setChildren
    ((n.children.reverse.dropWhile (fun ch => ch.value = Value.elem .LINE_BREAK)).reverse)

/-- `check_if_frontmatter`: Root with no children, or Root whose only
child is a Frontmatter node. -/
def check_if_frontmatter (n : Node) : Bool :=
  if n.value = .elem .ROOT then
    if n.children.isEmpty then true
    else if n.children.length = 1 ∧
        (n.children.head?.map Node.value) = some (.elem .FRONTMATTER) then true
    else false
  else false

/-- `begin_or_end_frontmatter`. -/
def begin_or_end_frontmatter (n : Node) : Node :=
  if n.children.isEmpty then add_child n (.elem .FRONTMATTER)
  else if (n.children.head?.map Node.value) = some (.elem .FRONTMATTER) then
    close_children n
  else n

/-- `top_level_elements`. -/
def top_level_elements : List String :=
  ["!H1", "!H2", "!H3", "!H4", "!H5", "!H6", "!BLOCK_QUOTE", "!HBAR"]

/-- `internal_link_has_no_display_text`. -/
def internal_link_has_no_display_text (n : Node) : Bool :=
  (n.value = Value.elem .INTERNAL_LINK ∨ n.value = Value.elem .EMBED_LINK) ∧
    ¬ n.children.isEmpty ∧ n.link_to = ""

/-- `process_external_link`: find the `!LINK_BREAK` marker among the
child values (`list.index` raises ValueError, modelled `none`, when it is
absent), move the tail into `link_to` and truncate the children. -/
def process_external_link (n : Node) : Option Node :=
  let childValues := n.children.map (fun ch => valueStr ch.value)
  match childValues.findIdx? (fun s => s = "!LINK_BREAK") with
  | none => none
  | some bi =>
    some ((n.setLinkTo (joinStr (childValues.drop (bi + 1)))).setChildren
      (n.children.take bi))

/-- `close_links_and_embeds`: external-link target extraction, implicit
`link_to` from rendered children, and the embed-to-image reclassification
with the `WIDTHxHEIGHT` hint (both halves must be purely decimal digits,
else both are cleared). -/
def close_links_and_embeds (n : Node) : Option Node := do
  let n ← if n.value = Value.elem .EXTERNAL_LINK then process_external_link n
          else some n
  let n := if internal_link_has_no_display_text n then
             n.setLinkTo (joinStr (n.children.map nodeStr))
           else n
  if n.value = Value.elem .EMBED_LINK ∧
      (pyLastN n.link_to 4 = ".jpg" ∨ pyLastN n.link_to 4 = ".png") then
    let n := n.setValue (.elem .IMAGE)
    if ¬ n.children.isEmpty then
      let childString := joinStr (n.children.map (fun ch => valueStr ch.value))
      let parts := pyPartitionChar childString 'x'
      let w := parts.1
      let h := parts.2.2
      if ¬ (is_digits w ∧ is_digits h) then
        some ((n.setDims "" "").setChildren [])
      else
        some ((n.setDims w h).setChildren [])
    else some n
  else some n

/-- `handle_line_breaks`: every path except the list one refers to the
name `token`, which is not bound inside this method (`NameError` at
runtime, modelled `none`).  The list path performs
`self.root.close_children()`, returned as an effect flag for the top of
the recursion. -/
def handle_line_breaks (n : Node) : Option (Node × Bool) :=
  if lastChildValueIs n (.elem .LINE_BREAK) then none
  else if n.value = Value.elem .UNORDERED_LIST ∨ n.value = Value.elem .ORDERED_LIST then
    some (n, true)
  else none

/-- Python `int(s)` on the `!OLI_` payload: a non-empty all-digit string
parses to its decimal value, anything else raises ValueError (`none`).
(The payloads the resolver could produce are decimal digit runs, so the
sign/whitespace forms `int` would also accept cannot arise.) -/
def pyInt (s : String) : Option Nat :=
  if s ≠ "" ∧ s.data.all Char.isDigit then
    some (s.data.foldl (fun a c => a * 10 + (c.toNat - '0'.toNat)) 0)
  else none

/-- Python `token.partition("_")[2]`: everything after the first
underscore (empty when there is none). -/
def pyAfterUnderscore (s : String) : String :=
  (pyPartitionChar s '_').2.2

/-- `children and children[-1].value in list_nodes`. -/
def lastChildIsListNode (n : Node) : Bool :=
  match n.children.getLast? with
  | none => false
  | some ch => ch.value = Value.elem .UNORDERED_LIST ∨ ch.value = Value.elem .ORDERED_LIST

/-- The `while searching and try_count < 5` loop of `find_correct_list`,
fused with the caller's `correct_list.add_child(Element.ITEM)`.  Each
iteration either descends into a trailing list child or appends a fresh
list node (with `list_indent` one more than the current node's) and
re-tests; when `tab_count` matches the current node's `list_indent` the
ITEM is appended there.  If the five tries run out, `correct_list` was
never assigned and the source raises UnboundLocalError (`none`). -/
def fcl_loop (current : Node) (tabCount : Nat) (listType : Element)
    (listNumber : Nat) : Nat → Option Node
  | 0 => none
  | remaining + 1 =>
    if lastChildIsListNode current then
      match current.children.getLast? with
      | none => none
      | some child =>
        if tabCount = child.list_indent then
          some (updateLast current (add_child child (.elem .ITEM)))
        else
          (fcl_loop child tabCount listType listNumber remaining).map
            (updateLast current)
    else
      let newL0 := newNode (.elem listType)
      let newL1 := if listNumber ≠ 0 then newL0.setStartNumber listNumber else newL0
      let newL := newL1.setListIndent (current.list_indent + 1)
      let current' := current.setChildren (current.children ++ [newL])
      if tabCount = current'.list_indent then
        some (add_child current' (.elem .ITEM))
      else
        fcl_loop current' tabCount listType listNumber remaining

/-- `find_correct_list(token)` followed by the caller's
`correct_list.add_child(Element.ITEM)`: returns the updated root.
`!ITEM` selects unordered lists; an `!OLI_n` token selects ordered lists
with `start_number` from its payload. -/
def find_correct_list (root : Node) (token : String) : Option Node := do
  let listType := if token = "!ITEM" then Element.UNORDERED_LIST
                  else Element.ORDERED_LIST
  let listNumber ←
    if listType = Element.ORDERED_LIST then pyInt (pyAfterUnderscore token)
    else some 0
  if root.tab_count = 0 then
    if lastChildValueIs root (.elem listType) then
      match root.children.getLast? with
      | none => none
      | some last => some (updateLast root (add_child last (.elem .ITEM)))
    else
      let newL0 := newNode (.elem listType)
      let newL := if listNumber ≠ 0 then newL0.setStartNumber listNumber else newL0
      let root' := root.setChildren (root.children ++ [newL])
      match root'.children.getLast? with
      | none => none
      | some last => some (updateLast root' (add_child last (.elem .ITEM)))
  else
    fcl_loop root root.tab_count listType listNumber 5

/-- `isinstance(new_value, str) or new_value in [Element.EM, Element.STRONG]`,
the guard of the paragraph auto-wrap at the root. -/
def is_text_or_inline (v : Value) : Bool :=
  match v with
  | .text _ => true
  | .elem e => e = Element.EM ∨ e = Element.STRONG

/-- `Node.catch_token(token)` as one structurally recursive function over
a fuel bound.  The phase flag distinguishes the top of the method
(`rootPhase = true`: the Root special cases, which on fall-through enter
the part below the source's "Recursion step" comment) from that second
part (`rootPhase = false`): delegate to an open last child, else handle
`!CLOSE`, `!LINE_BREAK`, `!PIPE`, `!EOF`, and finally the default append
with the paragraph auto-wrap re-dispatch.  It returns the updated node
together with the pending `self.root.close_children()` effect flag from
`handle_line_breaks`.  The fuel only bounds the recursion depth (the
source recurses on the open-child spine plus one re-dispatch per
auto-wrap, which always terminates); running out of fuel models no
source behaviour. -/
def catch_aux : Nat → Bool → Node → String → Option (Node × Bool)
  | 0, _, _, _ => none
  | fuel + 1, true, self, token =>
    if self.value = Value.elem .ROOT then
      if token = "!HBAR" ∧ check_if_frontmatter self then
        catch_aux fuel false (begin_or_end_frontmatter self) token
      else if token = "!TAB" then
        some (self.setTabCount (self.tab_count + 1), false)
      else if token = "!ITEM" ∨ String.mk (token.data.take 5) = "!OLI_" then
        (find_correct_list self token).map (fun r => (r.setTabCount 0, false))
      else if token ∈ top_level_elements then
        let s := close_children (remove_trailing_line_breaks self)
        some (add_child s (evaluate_token token), false)
      else catch_aux fuel false self token
    else catch_aux fuel false self token
  | fuel + 1, false, self, token =>
    if last_child_open self then
      match self.children.getLast? with
      | none => none
      | some last =>
        (catch_aux fuel true last token).map (fun p => (updateLast self p.1, p.2))
    else if token = "!CLOSE" then
      (close_links_and_embeds (self.setClosed true)).map (fun n => (n, false))
    else if token = "!LINE_BREAK" then handle_line_breaks self
    else if token = "!PIPE" ∧
        (self.value = Value.elem .INTERNAL_LINK ∨ self.value = Value.elem .EMBED_LINK) then
      if self.children.isEmpty then some (self, false)
      else
        some ((self.setLinkTo (joinStr (self.children.map nodeStr))).setChildren [],
          false)
    else if token = "!EOF" then some (remove_trailing_line_breaks self, false)
    else
      let newValue := evaluate_token token
      if self.value = Value.elem .ROOT ∧ is_text_or_inline newValue then
        let s := add_child (remove_trailing_line_breaks self) (.elem .PARAGRAPH)
        catch_aux fuel true s token
      else some (add_child self newValue, false)

/-- `Node.catch_token(token)`. -/
def catch_token (fuel : Nat) (self : Node) (token : String) : Option (Node × Bool) :=
  catch_aux fuel true self token

/-- Feed one resolved token to the tree rooted at `root`; a pending
`self.root.close_children()` effect is applied to the root afterwards
(in the source the mutation happens through the `root` back-reference
while the recursion merely unwinds). -/
def tree_step (root : Node) (token : String) : Option Node :=
  (catch_token 100 root token).map (fun p => if p.2 then close_children p.1 else p.1)

/-- The driver loop of `parse`: feed every resolved token to a fresh Root
node. -/
def build_tree (tokens : List String) : Option Node :=
  tokens.foldlM tree_step (newNode (.elem .ROOT))

/-- The full pipeline of `parse(note)` up to the finished tree (the
subsequent front-matter pop and HTML serialisation are outside the core
covered here). -/
def parse (note : String) : Option Node := do
  let tokens ← tokenise note
  let resolved ← processDelimiters tokens
  build_tree resolved

/-! ## Claims -/

/-- Helper: the `delimiters` table maps both newline tokens to
`closed_by_newline`. -/
theorem delimitersLookup_newline :
    delimitersLookup "\n" = some closed_by_newline ∧
    delimitersLookup "\n\n" = some closed_by_newline := ⟨rfl, rfl⟩

/-- Helper: neither newline token is in the `openers` table. -/
theorem openersLookup_newline :
    openersLookup "\n" = none ∧ openersLookup "\n\n" = none := ⟨rfl, rfl⟩

/-- C1: the delimiter resolver does *not* always return a result: the
branches `if token == "](" and delimiter_stack[-1][1] == "["` and
`if delimiter_stack[-1][1] in "![["` (reached for every `|` token) index
into the delimiter stack without an emptiness guard, so a `](` or `|`
token arriving on an empty stack raises IndexError, modelled as `none`.
The second conjunct shows the failure is reachable from raw input
(`"a|b"` tokenises to a literal, a lone `|` and `!EOF`). -/
theorem C1_resolver_empty_stack_raises :
    processDelimiters ["](", "!EOF"] = none ∧
    (tokenise "a|b").bind processDelimiters = none := ⟨rfl, rfl⟩

/-- C2: `![[pic.jpg|200x100]]` parses to a tree whose only child is an
Image node with `link_to = "pic.jpg"`, `image_width = "200"` and
`image_height = "100"`; with the malformed hint `200xabc` both dimension
fields are the empty string. -/
theorem C2_image_dimension_hint :
    parse "![[pic.jpg|200x100]]" =
      some (.mk (.elem .ROOT) false "" 0 1 0 "" ""
        [.mk (.elem .IMAGE) true "pic.jpg" 0 1 0 "200" "100" []]) ∧
    parse "![[pic.jpg|200xabc]]" =
      some (.mk (.elem .ROOT) false "" 0 1 0 "" ""
        [.mk (.elem .IMAGE) true "pic.jpg" 0 1 0 "" "" []]) := ⟨rfl, rfl⟩

/-- C3 counterexample: a *single* newline token that closes nothing (the
only stack entry is the emphasis opener `*`, which `\n` cannot close) is
claimed to leave the stack alone and not be rewritten; in fact
`token in "\n\n"` is a Python substring test, so the lone `\n` flushes the
`*` opener off the stack (final stack `[]`) and is rewritten to
`!LINE_BREAK` — which the claim reserves for blank lines. -/
theorem C3_counterexample :
    processDelimiters ["*", "\n", "!EOF"] = some ["*", "!LINE_BREAK", "!EOF"] ∧
    (processDelimitersSt ["*", "\n", "!EOF"]).map DState.stack = some [] := ⟨rfl, rfl⟩

/-- C3 (amended): at *any* newline or double-newline token whose stack top
is not a block-prefix opener (so the closer branch does not consume it),
the resolver pops and discards every stack entry that is not a backtick
code opener (`d[1] in "```"`), and rewrites the position to the
paragraph-break token `!LINE_BREAK` exactly when the remaining stack is
empty; while a code opener survives on the stack the newline stays
literal. -/
theorem C3_newline_flush (st : DState) (i : Nat) (tok : String)
    (hnl : tok = "\n" ∨ tok = "\n\n")
    (hnc : ∀ top, st.stack.getLast? = some top →
      closed_by_newline.contains top.2 = false) :
    procStep st i tok =
      some { stack := st.stack.filter (fun d => pyInStr d.2 "```"),
             processed :=
               if (st.stack.filter (fun d => pyInStr d.2 "```")).isEmpty then
                 pyDictInsert st.processed i "!LINE_BREAK"
               else st.processed,
             external_link_correct := st.external_link_correct } := by
  have hopeners : ∀ t, t = "\n" ∨ t = "\n\n" →
      procStepOpeners st i t =
        some { stack := st.stack.filter (fun d => pyInStr d.2 "```"),
               processed :=
                 if (st.stack.filter (fun d => pyInStr d.2 "```")).isEmpty then
                   pyDictInsert st.processed i "!LINE_BREAK"
                 else st.processed,
               external_link_correct := st.external_link_correct } := by
    rintro t (rfl | rfl) <;>
      · show some (if (List.filter (fun d => pyInStr d.2 "```") st.stack).isEmpty = true
            then ({ stack := List.filter (fun d => pyInStr d.2 "```") st.stack,
                    processed := pyDictInsert st.processed i "!LINE_BREAK",
                    external_link_correct := st.external_link_correct } : DState)
            else { stack := List.filter (fun d => pyInStr d.2 "```") st.stack,
                   processed := st.processed,
                   external_link_correct := st.external_link_correct }) = _
        by_cases hE : (List.filter (fun d => pyInStr d.2 "```") st.stack).isEmpty = true
        · rw [if_pos hE, if_pos hE]
        · rw [if_neg hE, if_neg hE]
  have hguard : closerMatches st tok = false := by
    rcases hnl with rfl | rfl <;>
      · unfold closerMatches
        cases hl : st.stack.getLast? with
        | none => rfl
        | some top => exact hnc top hl
  have hsteps : procStep st i tok = procStepClosers st i tok := by
    rcases hnl with rfl | rfl <;> rfl
  rw [hsteps]
  unfold procStepClosers
  rw [hguard]
  rcases hnl with rfl | rfl
  · simpa using hopeners "\n" (Or.inl rfl)
  · simpa using hopeners "\n\n" (Or.inr rfl)

/-- C3 witness: the amended flush rule applied to a concrete state with
the `*` opener on the stack and a `\n` token. -/
theorem C3_newline_flush_witness :
    procStep ⟨[(0, "*")], [], false⟩ 1 "\n" =
      some ⟨[], [(1, "!LINE_BREAK")], false⟩ := by
  have h := C3_newline_flush ⟨[(0, "*")], [], false⟩ 1 "\n" (Or.inl rfl)
    (by intro top htop; simp at htop; subst htop; rfl)
  simpa using h

/-- C4: the guard of `backtick_handler` is `self.stream.peek(2) == 2`, a
string-to-integer comparison that is always False in Python, so a
backtick followed by two more backticks is *not* collapsed into a
code-block token: `"```"` tokenises to three separate code-span tokens
(and a single backtick still yields one code-span token, as claimed). -/
theorem C4_backtick_never_code_block :
    tokenise "```" = some ["`", "`", "`", "!EOF"] ∧
    tokenise "`" = some ["`", "!EOF"] := ⟨rfl, rfl⟩

/-- C5 counterexample: on `"####### x"` (seven `#` then a space) the
heading probe *succeeds* — `check_heading`, called with the cursor one
past the first `#`, returns the seven-hash string because the `i > 6`
cut-off is only reached at the eighth hash — so the tokeniser emits a
single `"#######"` token and consumes the space, instead of falling
through to the tag probe and leaving the text (with its space) literal. -/
theorem C5_counterexample :
    check_heading ⟨"####### x".data, 1⟩ = "#######" ∧
    tokenise "####### x" ≠ some ["####### x", "!EOF"] := by
  exact ⟨rfl, by decide⟩

/-- C5 (amended): `# Title\n` at the start of a document yields a
Heading(1) node with exactly one text child `Title`; a run of seven `#`
followed by a space *is* accepted by the heading probe and emitted as a
single `"#######"` token (consuming through the space), but no later
stage treats it as a heading — the resolver has no opener for it and
leaves it unchanged, so it reaches the tree as literal text. -/
theorem C5_heading_probe :
    parse "# Title\n" =
      some (.mk (.elem .ROOT) true "" 0 1 0 "" ""
        [.mk (.elem .H1) true "" 0 1 0 "" ""
          [.mk (.text "Title") true "" 0 1 0 "" "" []]]) ∧
    tokenise "####### x" = some ["#######", "x", "!EOF"] ∧
    processDelimiters ["#######", "x", "!EOF"] =
      some ["#######", "x", "!EOF"] := ⟨rfl, rfl, rfl⟩

/-- C6: when the ordered-list probe fails it does not write the
triggering digit: the source writes `peek_char(0)`, the character *after*
the already-consumed digit, so `"1x"` tokenises to the literal `"xx"`
(the digit is lost and the following character doubled) instead of the
claimed `"1x"`.  The success path behaves as claimed: `"1. a"` yields the
list-item token `"1. "` with the input consumed through the space. -/
theorem C6_numbered_list_probe :
    tokenise "1x" = some ["xx", "!EOF"] ∧
    tokenise "1. a" = some ["1. ", "a", "!EOF"] := ⟨rfl, rfl⟩

/-- C7 counterexample: for list-item tokens with preceding tab counts
0, 0, 1, 0 the outer UnorderedList has *four* children —
ListItem, ListItem, a nested UnorderedList (as a direct child of the
outer list), ListItem — and the second ListItem's subtree is empty: the
nested list is a sibling of the items, not inside the second ListItem as
the claim states. -/
theorem C7_counterexample :
    (build_tree ["!ITEM", "!ITEM", "!TAB", "!ITEM", "!ITEM"]).map
      (fun root => root.children.map (fun l =>
        (l.value, l.children.map (fun c => (c.value, c.children.length))))) =
    some [(Value.elem .UNORDERED_LIST,
      [(Value.elem .ITEM, 0), (Value.elem .ITEM, 0),
       (Value.elem .UNORDERED_LIST, 1), (Value.elem .ITEM, 0)])] := rfl

/-- C7 (amended): the tab-count sequence 0, 0, 1, 0 yields one
UnorderedList under the root whose children are, in order: two ListItems
at depth 0, a nested UnorderedList with `list_indent` 1 holding the
depth-1 ListItem (appended as a direct child of the outer list, between
the second and third items), and the third depth-0 ListItem. -/
theorem C7_list_nesting :
    build_tree ["!ITEM", "!ITEM", "!TAB", "!ITEM", "!ITEM"] =
      some (.mk (.elem .ROOT) false "" 0 1 0 "" ""
        [.mk (.elem .UNORDERED_LIST) false "" 0 1 0 "" ""
          [.mk (.elem .ITEM) false "" 0 1 0 "" "" [],
           .mk (.elem .ITEM) false "" 0 1 0 "" "" [],
           .mk (.elem .UNORDERED_LIST) false "" 1 1 0 "" ""
             [.mk (.elem .ITEM) false "" 0 1 0 "" "" []],
           .mk (.elem .ITEM) false "" 0 1 0 "" "" []]]) := rfl

/-- C8 counterexample: a look-behind reaching before the start of the
input does *not* saturate to the empty result: `peek(-2)` at cursor 1 and
`peek_char(-1)` at cursor 0 both seek to a negative position, which
`io.StringIO.seek` rejects with ValueError (modelled `none`). -/
theorem C8_counterexample :
    StringPeek.peek ⟨"abc".data, 1⟩ (-2) = none ∧
    StringPeek.peek_char ⟨"abc".data, 0⟩ (-1) = none := ⟨rfl, rfl⟩

/-- C8 (amended): `peek` and `peek_char` are pure (they never move the
cursor) and saturate to the empty result past the *end* of the input, but
a request whose seek target falls before the *start* of the input raises
ValueError (`none`): `peek st n` fails exactly when `n` is negative and
`pos + n < 0`, and `peek_char st off` fails exactly when `pos + off < 0`. -/
theorem C8_peek_saturation (st : StringPeek) (n off : Int) :
    (st.peek n = none ↔ n < 0 ∧ (st.pos : Int) + n < 0) ∧
    (st.peek_char off = none ↔ (st.pos : Int) + off < 0) ∧
    (0 ≤ n → (st.s.length : Int) ≤ (st.pos : Int) → st.peek n = some "") := by
  refine ⟨?_, ?_, ?_⟩
  · unfold StringPeek.peek
    by_cases h1 : n < 0
    · by_cases h2 : (st.pos : Int) + n < 0 <;> simp [h1, h2]
    · simp [h1]
  · unfold StringPeek.peek_char
    by_cases h : (st.pos : Int) + off < 0 <;> simp [h]
  · intro hn hpos
    unfold StringPeek.peek
    rw [if_neg (by omega)]
    have hlen : st.s.length ≤ st.pos := by exact_mod_cast hpos
    unfold StringPeek.readFrom
    rw [List.drop_eq_nil_of_le hlen, List.take_nil]

/-- C8 witness: the amended characterisation applied at a concrete
stream, showing a concrete out-of-range look-behind fail. -/
theorem C8_peek_saturation_witness :
    StringPeek.peek_char ⟨"ab".data, 1⟩ (-3) = none :=
  (C8_peek_saturation ⟨"ab".data, 1⟩ 0 (-3)).2.1.mpr (by decide)

/-- C9: in `*a_b*c_` the inner `_` opener is rejected while `*` is on the
stack (`accept_opener`'s conflicting-family rule) and the trailing `_`
never finds a closer, so both `_` tokens stay literal; the `*`…`*` pair
resolves to `!EM`…`!CLOSE` and the tree holds a single Emphasis node
(no Emphasis nested in an Emphasis) with the trailing `_` as literal
paragraph text. -/
theorem C9_conflicting_family :
    processDelimiters ["*", "a", "_", "b", "*", "c", "_", "!EOF"] =
      some ["!EM", "a", "_", "b", "!CLOSE", "c", "_", "!EOF"] ∧
    parse "*a_b*c_" =
      some (.mk (.elem .ROOT) false "" 0 1 0 "" ""
        [.mk (.elem .PARAGRAPH) false "" 0 1 0 "" ""
          [.mk (.elem .EM) true "" 0 1 0 "" ""
            [.mk (.text "a") true "" 0 1 0 "" "" [],
             .mk (.text "_") true "" 0 1 0 "" "" [],
             .mk (.text "b") true "" 0 1 0 "" "" []],
           .mk (.text "c") true "" 0 1 0 "" "" [],
           .mk (.text "_") true "" 0 1 0 "" "" []]]) := ⟨rfl, rfl⟩

/-- C10: a `!` not immediately followed by `[[` falls through
`bang_handler` with no effect at all — the state (buffer, tokens, stream)
is returned unchanged, so the `!` is silently discarded; consequently
`"a!b"` tokenises to the single literal token `"ab"` followed by
end-of-stream. -/
theorem C10_bang_discard :
    (∀ ts : TState, (ts.stream.peek 2).getD "" ≠ "[[" → bang_handler ts = some ts) ∧
    tokenise "a!b" = some ["ab", "!EOF"] := by
  constructor
  · intro ts h
    unfold bang_handler
    rw [if_neg h]
  · rfl

/-- C10 witness: the discard rule applied at the concrete tokeniser state
reached in `"a!b"` just after the `!` is read. -/
theorem C10_bang_discard_witness :
    bang_handler ⟨⟨"a!b".data, 2⟩, [], "a"⟩ = some ⟨⟨"a!b".data, 2⟩, [], "a"⟩ :=
  C10_bang_discard.1 ⟨⟨"a!b".data, 2⟩, [], "a"⟩ (by decide)
